import Mathlib

/-!
Verification of the survey-converter core (survey_parser.py, xml_generator.py,
and the result assembly of parse_survey_document / read_docx_file).

The Python code is shallowly embedded:

* Python strings are Lean `String`s (lists of characters).  Paragraph and cell
  strings are assumed to be single-line (no embedded newline), which is how the
  upstream document reader produces them; the regex embeddings note where this
  assumption is used.
* `str.strip`, `str.lower`, `str.isdigit`, the `in` substring test, and
  `str.split` are embedded directly (`pyStrip`, `pyLower`, `pyIsDigit`,
  `hasSub`, `splitChar`).  `\d` and `.lower()` are modelled over ASCII.
* The five regexes of `SurveyParser.question_patterns` are embedded as
  deterministic matchers, including the backtracking behaviour of
  `^(\d+\.\d+[a-zA-Z]?)\s*(.+)$` on inputs where nothing follows the numbering.
* Mutation is modelled by record update: helpers that write a single field of
  the current question are `\x7b q with field := ... \x7d` updates.
* Code that can raise (list indexing in the backward positional search of
  `_assign_table_options`) returns `Except Unit`; `.error ()` models the
  `IndexError` escaping to the caller, every other path is total.
* `datetime.now()` is modelled as an explicit string parameter threaded to the
  places that call it (`processed_time` fields).
-/

/-- The whitespace class of Python's `str.strip` / `\s` (ASCII part). -/
def isPySpace (c : Char) : Bool :=
  c == ' ' || c == '\t' || c == '\n' || c == '\r' || c == '\x0b' || c == '\x0c'

/-- Python `str.strip()` on the character list. -/
def stripChars (l : List Char) : List Char :=
  ((l.dropWhile isPySpace).reverse.dropWhile isPySpace).reverse

/-- Python `str.strip()`. -/
def pyStrip (s : String) : String := ⟨stripChars s.data⟩

/-- Python `str.lower()` (ASCII letters; other characters, in particular the
Chinese keywords used by the parser, are unchanged, as in Python). -/
def pyLower (s : String) : String := ⟨s.data.map Char.toLower⟩

/-- Python `str.isdigit()` restricted to ASCII digits: non-empty and all
digits. -/
def pyIsDigit (s : String) : Bool := !s.data.isEmpty && s.data.all Char.isDigit

/-- Does `l` start with the needle (character-exact)? -/
def startsWithList : List Char → List Char → Bool
  | [], _ => true
  | _ :: _, [] => false
  | a :: as, b :: bs => a == b && startsWithList as bs

/-- Helper for the Python substring test: needle occurs somewhere in the
haystack. -/
def hasSubList (needle : List Char) : List Char → Bool
  | [] => startsWithList needle []
  | c :: t => startsWithList needle (c :: t) || hasSubList needle t

/-- Python `needle in hay` on strings. -/
def hasSub (hay needle : String) : Bool := hasSubList needle.data hay.data

/-- Case-insensitive literal match: on success returns the verbatim consumed
prefix of the input together with the rest.  Models a literal regex fragment
under `re.IGNORECASE`. -/
def matchCI : List Char → List Char → Option (List Char × List Char)
  | [], l => some ([], l)
  | _ :: _, [] => none
  | p :: ps, c :: cs =>
    if p.toLower == c.toLower then
      match matchCI ps cs with
      | some (m, rest) => some (c :: m, rest)
      | none => none
    else none

/-- `^(ASK\s+ALL|ASK\s+IF\s+.+)$` with `re.IGNORECASE`
(`SurveyParser.question_patterns["answer_logic"]`, used by
`_is_answer_logic`).  Callers always pass stripped strings, so `$` is plain
end-of-input here. -/
def matchAnswerLogic (s : String) : Bool :=
  match matchCI "ASK".data s.data with
  | none => false
  | some (_, r1) =>
    let ws := r1.takeWhile isPySpace
    let r2 := r1.dropWhile isPySpace
    if ws.isEmpty then false
    else
      (match matchCI "ALL".data r2 with
       | some (_, rest) => rest.isEmpty
       | none => false)
      ||
      (match matchCI "IF".data r2 with
       | some (_, r3) =>
         let ws2 := r3.takeWhile isPySpace
         let r4 := r3.dropWhile isPySpace
         !ws2.isEmpty && !r4.isEmpty && r4.all (fun c => c != '\n')
       | none => false)

/-- One `word1\s+word2` alternative of the question-type regex, case
insensitive, returning the verbatim consumed text. -/
def matchTypeWords (w1 w2 : List Char) (l : List Char) : Option (List Char × List Char) :=
  match matchCI w1 l with
  | none => none
  | some (m1, r1) =>
    let ws := r1.takeWhile isPySpace
    let r2 := r1.dropWhile isPySpace
    if ws.isEmpty then none
    else
      match matchCI w2 r2 with
      | none => none
      | some (m2, r3) => some (m1 ++ ws ++ m2, r3)

/-- Group 1 of
`^(Single\s+Answer|Multiple\s+Answers?|Open\s+Answer|Numeric)\.?\s*.*$` with
`re.IGNORECASE` (`question_patterns["question_type"]`): the matched
alternative is returned verbatim (spelling and case as found).  After the
group the tail `\.?\s*.*$` always matches a single-line input, so the match
succeeds exactly when one alternative matches at the start. -/
def typeGroup1 (s : String) : Option String :=
  let l := s.data
  match matchTypeWords "Single".data "Answer".data l with
  | some (m, _) => some (String.mk m)
  | none =>
    match matchTypeWords "Multiple".data "Answer".data l with
    | some (m, r) =>
      match r with
      | c :: _ => if c.toLower == 's' then some (String.mk (m ++ [c])) else some (String.mk m)
      | [] => some (String.mk m)
    | none =>
      match matchTypeWords "Open".data "Answer".data l with
      | some (m, _) => some (String.mk m)
      | none =>
        match matchCI "Numeric".data l with
        | some (m, _) => some (String.mk m)
        | none => none

/-- `SurveyParser._is_question_type`. -/
def isQuestionType (s : String) : Bool := (typeGroup1 s).isSome

/-- ASCII letter test, the `[a-zA-Z]` class. -/
def isAsciiLetter (c : Char) : Bool :=
  ('a' ≤ c && c ≤ 'z') || ('A' ≤ c && c ≤ 'Z')

/-- `^(\d+\.\d+[a-zA-Z]?)\s*(.+)$` (`question_patterns["question_number"]`):
returns (group 1, group 2) on a match.  Callers pass stripped single-line
strings.  The two non-obvious cases reproduce the regex engine's
backtracking: when nothing follows the numbering, the optional letter (or,
failing that, the last digit of the minor run) is given back to feed `(.+)`. -/
def matchQuestionNumber (s : String) : Option (String × String) :=
  let l := s.data
  let d1 := l.takeWhile Char.isDigit
  let r1 := l.dropWhile Char.isDigit
  if d1.isEmpty then none
  else
    match r1 with
    | '.' :: r2 =>
      let d2 := r2.takeWhile Char.isDigit
      let r3 := r2.dropWhile Char.isDigit
      if d2.isEmpty then none
      else
        match r3 with
        | [] =>
          match d2.reverse with
          | lastd :: dInit =>
            if dInit.isEmpty then none
            else some (String.mk (d1 ++ '.' :: dInit.reverse), String.mk [lastd])
          | [] => none
        | c :: rest =>
          if isAsciiLetter c then
            match rest.dropWhile isPySpace with
            | [] => some (String.mk (d1 ++ '.' :: d2), String.mk [c])
            | r5 => some (String.mk (d1 ++ '.' :: d2 ++ [c]), String.mk r5)
          else
            match r3.dropWhile isPySpace with
            | [] => none
            | r5 => some (String.mk (d1 ++ '.' :: d2), String.mk r5)
    | _ => none

/-- One answer option: `option_code` / `option_text`
(`_parse_option`'s result dict shape). -/
structure Opt where
  option_code : String
  option_text : String
deriving DecidableEq, Repr

/-- `^(.+?)\s+(\d+)$` (`question_patterns["option"]`) combined with
`_parse_option`: the trailing digit run is group 2, the mandatory whitespace
run before it separates it from group 1, which is then stripped. -/
def parseOption (s : String) : Option Opt :=
  let rev := s.data.reverse
  let dRev := rev.takeWhile Char.isDigit
  let r1 := rev.dropWhile Char.isDigit
  if dRev.isEmpty then none
  else
    let wRev := r1.takeWhile isPySpace
    let aRev := r1.dropWhile isPySpace
    if wRev.isEmpty then none
    else if aRev.isEmpty then none
    else some { option_code := String.mk dRev.reverse
                option_text := pyStrip (String.mk aRev.reverse) }

/-- `SurveyParser._clean_question_text`: take the first line, strip it, and
reject it if it is itself a type marker or an answer-logic marker. -/
def cleanQuestionText (s : String) : String :=
  let first := pyStrip (String.mk (s.data.takeWhile (fun c => c != '\n')))
  if isQuestionType first then ""
  else if matchAnswerLogic first then ""
  else first

/-- Python `str.split(sep)` for a one-character separator: every occurrence
splits, empty parts are kept, the empty string gives one empty part. -/
def splitChar (sep : Char) : List Char → List (List Char)
  | [] => [[]]
  | c :: t =>
    if c == sep then [] :: splitChar sep t
    else
      match splitChar sep t with
      | h :: r => (c :: h) :: r
      | [] => [[c]]

/-- Python `num.split(".")` on a string. -/
def pySplitDot (num : String) : List String :=
  (splitChar '.' num.data).map String.mk

/-- `SurveyParser._generate_question_id`: `"A.B"` becomes `"QAxB"`, any other
shape becomes `"Q<numbering>"` verbatim. -/
def generateQuestionId (num : String) : String :=
  match pySplitDot num with
  | [p0, p1] => "Q" ++ p0 ++ "x" ++ p1
  | _ => "Q" ++ num

/-- A question record, the dict built by `_parse_questions`
(`index`, `answer_logic`, `question_id`, `question_text`, `question_type`,
`question_options`). -/
structure Question where
  index : Nat
  answer_logic : String
  question_id : String
  question_text : String
  question_type : String
  question_options : List Opt
deriving DecidableEq, Repr

/-- One row of `SurveyParser._extract_table_options`' per-table loop: `opts`
is the option list accumulated so far for this table, `row` the cell texts.
The three shape rules are the `len(row) >= 4` / `>= 2` / `>= 1` chain of the
source; the one-cell rule synthesises `str(len(options) + 1)` as the code. -/
def rowStep (opts : List Opt) (row : List String) : List Opt :=
  if row.length ≥ 4 then
    let t1 := pyStrip (row.getD 0 "")
    let c1 := pyStrip (row.getD 1 "")
    let t2 := pyStrip (row.getD 2 "")
    let c2 := pyStrip (row.getD 3 "")
    let opts1 := if t1 ≠ "" && c1 ≠ "" then opts ++ [⟨c1, t1⟩] else opts
    if t2 ≠ "" && c2 ≠ "" then opts1 ++ [⟨c2, t2⟩] else opts1
  else if row.length ≥ 2 then
    let t := pyStrip (row.getD 0 "")
    let c := pyStrip (row.getD 1 "")
    if t ≠ "" && c ≠ "" then opts ++ [⟨c, t⟩] else opts
  else if row.length ≥ 1 then
    let t := pyStrip (row.getD 0 "")
    if t ≠ "" && !pyIsDigit t then opts ++ [⟨toString (opts.length + 1), t⟩] else opts
  else opts

/-- Option list produced from one table grid (the inner loop of
`_extract_table_options`). -/
def tableOptionsOf (rows : List (List String)) : List Opt :=
  rows.foldl rowStep []

/-- One iteration of `_extract_table_options`' outer loop: append the
table's option list when it is non-empty. -/
def extractStep (acc : List (List Opt)) (t : List (List String)) : List (List Opt) :=
  if tableOptionsOf t ≠ [] then acc ++ [tableOptionsOf t] else acc

/-- `SurveyParser._extract_table_options`: tables contribute in order, and a
table is appended only when it produced at least one option. -/
def extractTableOptions (tables : List (List (List String))) : List (List Opt) :=
  tables.foldl extractStep []

/-- The forward positional search of `_assign_table_options`' default branch:
`for i in range(table_index + 1, len(table_options))`, stopping at the first
non-empty list.  Bounded by the list length, hence total; `fuel` starts at
`ts.length`. -/
def searchForwardAux (ts : List (List Opt)) : Nat → Nat → Option (List Opt)
  | 0, _ => none
  | fuel + 1, j =>
    if j < ts.length then
      if !(ts.getD j []).isEmpty then some (ts.getD j [])
      else searchForwardAux ts fuel (j + 1)
    else none

/-- The backward positional search: `for i in range(table_index - 1, -1, -1)`
with the unchecked access `table_options[i]`.  Called with `count` = number of
positions to visit (the loop visits `count - 1` down to `0`);
`.error ()` models the `IndexError` raised when the first visited position is
out of range. -/
def backwardLoop (ts : List (List Opt)) : Nat → Except Unit (Option (List Opt))
  | 0 => .ok none
  | k + 1 =>
    match ts.get? k with
    | none => .error ()
    | some l => if !l.isEmpty then .ok (some l) else backwardLoop ts k

/-- The option list chosen by `SurveyParser._assign_table_options` for a
question, or the question's current list when no rule assigns one.  The
elif chain is reproduced in source order.  Python's `question["index"] - 1`
and `- 2` are ints; with a `Nat` index the in-range tests
`0 <= index-1 < len` / `0 <= index-2 < len` are written
`1 ≤ index ∧ index-1 < len` / `2 ≤ index ∧ index-2 < len`, which agree with
the int semantics for every natural index.  Only the backward search of the
default branch can raise. -/
def assignedOptionsE (ts : List (List Opt)) (q : Question) : Except Unit (List Opt) :=
  let text := q.question_text
  if text = "" then .ok q.question_options
  else
    let lq := pyLower text
    if hasSub text "性别" then
      .ok (if 0 < ts.length then ts.getD 0 [] else q.question_options)
    else if hasSub text "年龄" then
      .ok (if 1 < ts.length then ts.getD 1 [] else q.question_options)
    else if hasSub text "居留身份" then
      .ok (if 2 < ts.length then ts.getD 2 [] else q.question_options)
    else if hasSub text "信用卡" && hasSub text "持有任何" then
      .ok (if 3 < ts.length then ts.getD 3 [] else q.question_options)
    else if hasSub text "职业" then
      .ok (if q.index == 5 && 4 < ts.length then ts.getD 4 []
           else if q.index == 6 && 5 < ts.length then ts.getD 5 []
           else q.question_options)
    else if hasSub text "年收入" then
      .ok (if 6 < ts.length then ts.getD 6 [] else q.question_options)
    else if hasSub text "银行" then
      .ok (match ts.getLast? with
           | some l => l
           | none => q.question_options)
    else if hasSub text "信用卡" && hasSub text "持有哪些" then
      .ok (match ts.find? (fun opts => !opts.isEmpty &&
              opts.any (fun o => hasSub o.option_text "信用卡" ||
                hasSub o.option_text "Mastercard" || hasSub o.option_text "Visa")) with
           | some l => l
           | none => q.question_options)
    else if hasSub lq "mmpower" || hasSub lq "mastercard" then
      .ok (if hasSub text "何时取得" || hasSub lq "when" then
             (if 9 < ts.length then ts.getD 9 [] else q.question_options)
           else if 2 ≤ q.index && q.index - 2 < ts.length then ts.getD (q.index - 2) []
           else q.question_options)
    else if hasSub text "消费" || hasSub text "开销" then
      .ok (match ts.find? (fun opts => !opts.isEmpty &&
              opts.any (fun o => hasSub o.option_text "港币" || hasSub o.option_text "元") &&
              !(opts.any (fun o => hasSub o.option_text "银行" || hasSub o.option_text "信用卡"))) with
           | some l => l
           | none => q.question_options)
    else
      if 1 ≤ q.index && q.index - 1 < ts.length && !(ts.getD (q.index - 1) []).isEmpty then
        .ok (ts.getD (q.index - 1) [])
      else
        match searchForwardAux ts ts.length q.index with
        | some l => .ok l
        | none =>
          match backwardLoop ts (q.index - 1) with
          | .error e => .error e
          | .ok (some l) => .ok l
          | .ok none => .ok q.question_options

/-- `SurveyParser._assign_table_options`: writes only `question_options`. -/
def assignTableOptions (ts : List (List Opt)) (q : Question) : Except Unit Question :=
  (assignedOptionsE ts q).map (fun o => { q with question_options := o })

/-- `SurveyParser._infer_question_type_from_content`: the type inferred from
keywords and options, or the current type when no rule fires.  Writes only
`question_type`. -/
def inferredType (q : Question) : String :=
  let qt := pyLower q.question_text
  let opts := q.question_options
  if ["年龄", "收入", "金额", "数量", "百分比", "比例"].any (fun k => hasSub qt k) then
    "Numeric"
  else if ["选择所有", "多选", "哪些", "哪三个", "前三个"].any (fun k => hasSub qt k) then
    "Multiple Answers"
  else if opts.length == 2 &&
      opts.any (fun o => hasSub o.option_text "男" || hasSub o.option_text "女") then
    "Single Answer"
  else if opts.length > 2 then
    if opts.all (fun o => pyStrip o.option_text ≠ "") then "Single Answer"
    else q.question_type
  else q.question_type

/-- The window scan of `_find_question_type_comprehensive` strategy 1: search
paragraphs `max(0, i-5)` to `min(len, i+10)` (exclusive) for the first
stripped non-empty type marker and return its captured group. -/
def windowTypeSearch (paras : List String) (i : Nat) : Option String :=
  let s := i - 5
  let e := min paras.length (i + 10)
  match ((paras.drop s).take (e - s)).find?
      (fun p => pyStrip p ≠ "" && isQuestionType (pyStrip p)) with
  | some p => typeGroup1 (pyStrip p)
  | none => none

/-- `SurveyParser._find_question_type_comprehensive` as the type it leaves on
the question: empty text returns unchanged; otherwise strategy 1 scans the
window around the first paragraph containing the question text, and on
failure strategy 2 (`_infer_question_type_from_content`) applies. -/
def comprehensiveType (paras : List String) (q : Question) : String :=
  if q.question_text = "" then q.question_type
  else
    match List.findIdx? (fun p => hasSub p q.question_text) paras with
    | some i =>
      match windowTypeSearch paras i with
      | some t => t
      | none => inferredType q
    | none => inferredType q

/-- `_find_question_type_comprehensive`: writes only `question_type`. -/
def findTypeComprehensive (paras : List String) (q : Question) : Question :=
  { q with question_type := comprehensiveType paras q }

/-- The fresh question dict created when an answer-logic marker is seen
(lines 109-116 of `_parse_questions`). -/
def mkNewQuestion (idx : Nat) (logic : String) : Question :=
  { index := idx, answer_logic := logic, question_id := "", question_text := ""
    question_type := "", question_options := [] }

/-- Set `question_type` from a type-marker paragraph: the regex's first
captured group, verbatim.  Used both in the main loop (line 160) and the
bounded type lookahead (line 150). -/
def setTypeFrom (q : Question) (s : String) : Question :=
  match typeGroup1 s with
  | some g => { q with question_type := g }
  | none => q

/-- The marker-time finalisation of the question in progress (lines 103-106
of `_parse_questions`): run the comprehensive type search when the type is
still empty.  Options are not touched here. -/
def finalizeOnMarker (paras : List String) (q : Question) : Question :=
  if q.question_type = "" then findTypeComprehensive paras q else q

/-- The end-of-stream finalisation (lines 181-188): bind options when still
empty, then run the comprehensive type search when the type is still empty. -/
def finalizeAtEnd (paras : List String) (ts : List (List Opt)) (q : Question) :
    Except Unit Question :=
  match (if q.question_options.isEmpty then assignTableOptions ts q else .ok q) with
  | .error e => .error e
  | .ok q1 => .ok (finalizeOnMarker paras q1)

/-- Filling the new question from the lookahead paragraph at position `ni`
(lines 124-141): a numbered paragraph sets id and text from the regex
groups, any other sets the cleaned text with a synthetic `Q1x<index>` id;
both bind table options immediately. -/
def lookFill (paras : List String) (ts : List (List Opt)) (ni : Nat) (q : Question) :
    Except Unit Question :=
  match matchQuestionNumber (pyStrip (paras.getD ni "")) with
  | some (num, txt) =>
    assignTableOptions ts
      { q with question_id := generateQuestionId num, question_text := pyStrip txt }
  | none =>
    if cleanQuestionText (pyStrip (paras.getD ni "")) ≠ "" &&
        !isQuestionType (cleanQuestionText (pyStrip (paras.getD ni ""))) then
      assignTableOptions ts
        { q with question_text := cleanQuestionText (pyStrip (paras.getD ni ""))
                 question_id := "Q1x" ++ toString q.index }
    else .ok q

/-- The bounded type lookahead (lines 143-152): the two paragraphs after the
question-text paragraph are inspected; the first stripped non-empty type
marker among them sets the type. -/
def lookTypeSet (paras : List String) (ni : Nat) (q : Question) : Question :=
  if pyStrip (paras.getD (ni + 1) "") ≠ "" &&
      isQuestionType (pyStrip (paras.getD (ni + 1) "")) then
    setTypeFrom q (pyStrip (paras.getD (ni + 1) ""))
  else if pyStrip (paras.getD (ni + 2) "") ≠ "" &&
      isQuestionType (pyStrip (paras.getD (ni + 2) "")) then
    setTypeFrom q (pyStrip (paras.getD (ni + 2) ""))
  else q

/-- The bounded lookahead after an answer-logic marker at position `i`
(lines 119-154): find the next stripped non-empty non-marker paragraph, fill
the question from it, then look for a type marker in the two paragraphs
after it. -/
def lookStep (paras : List String) (ts : List (List Opt)) (i : Nat) (q : Question) :
    Except Unit Question :=
  match (paras.drop (i + 1)).findIdx?
      (fun p => pyStrip p ≠ "" && !matchAnswerLogic (pyStrip p)) with
  | none => .ok q
  | some k =>
    match lookFill paras ts (i + 1 + k) q with
    | .error e => .error e
    | .ok q1 => .ok (lookTypeSet paras (i + 1 + k) q1)

/-- The type-marker branch of the main loop (lines 157-170): set the type
from the marker, re-bind options when the text is known, and apply the
bank/Multiple override that binds the last option list. -/
def typeMarkerStep (ts : List (List Opt)) (para : String) (q : Question) :
    Except Unit Question :=
  if (setTypeFrom q para).question_text ≠ "" then
    match assignTableOptions ts (setTypeFrom q para) with
    | .error e => .error e
    | .ok q3 =>
      .ok (if hasSub q3.question_text "银行" && hasSub para "Multiple" then
             match ts.getLast? with
             | some l => { q3 with question_options := l }
             | none => q3
           else q3)
  else .ok (setTypeFrom q para)

/-- The inline-option branch of the main loop (lines 173-176). -/
def optionStep (para : String) (q : Question) : Question :=
  match parseOption para with
  | some o => { q with question_options := q.question_options ++ [o] }
  | none => q

/-- End of the paragraph stream (lines 180-190): finalise and append the
question in progress, if any. -/
def finishUp (paras : List String) (ts : List (List Opt)) (cur : Option Question)
    (acc : List Question) : Except Unit (List Question) :=
  match cur with
  | none => .ok acc
  | some q =>
    match finalizeAtEnd paras ts q with
    | .error e => .error e
    | .ok q1 => .ok (acc ++ [q1])

/-- The `while i < len(paragraphs)` loop of `_parse_questions`, with the
paragraph cursor `i`, the question in progress `cur`, the running counter
`qidx` (`question_index`), and the output accumulator `acc`.  `fuel` is
`paras.length - i`, making the recursion structural. -/
def parseLoopAux (paras : List String) (ts : List (List Opt)) :
    Nat → Nat → Option Question → Nat → List Question → Except Unit (List Question)
  | 0, _, cur, _, acc => finishUp paras ts cur acc
  | fuel + 1, i, cur, qidx, acc =>
    if i < paras.length then
      if matchAnswerLogic (pyStrip (paras.getD i "")) then
        match lookStep paras ts i (mkNewQuestion qidx (pyStrip (paras.getD i ""))) with
        | .error e => .error e
        | .ok newQ =>
          parseLoopAux paras ts fuel (i + 1) (some newQ) (qidx + 1)
            (match cur with
             | some q => acc ++ [finalizeOnMarker paras q]
             | none => acc)
      else
        match cur with
        | some q =>
          if isQuestionType (pyStrip (paras.getD i "")) then
            match typeMarkerStep ts (pyStrip (paras.getD i "")) q with
            | .error e => .error e
            | .ok q1 => parseLoopAux paras ts fuel (i + 1) (some q1) qidx acc
          else if (parseOption (pyStrip (paras.getD i ""))).isSome then
            parseLoopAux paras ts fuel (i + 1) (some (optionStep (pyStrip (paras.getD i "")) q)) qidx acc
          else
            parseLoopAux paras ts fuel (i + 1) (some q) qidx acc
        | none => parseLoopAux paras ts fuel (i + 1) none qidx acc
    else finishUp paras ts cur acc

/-- `SurveyParser._parse_questions`.  `.error ()` is an uncaught exception
(the `IndexError` of the assignment heuristic) propagating to the caller. -/
def parseQuestions (paras : List String) (ts : List (List Opt)) :
    Except Unit (List Question) :=
  parseLoopAux paras ts paras.length 0 none 1 []

/-- `file_info` as built by `WordToJsonConverter.read_docx_file`:
`processed_time` is `datetime.now().isoformat()` at read time. -/
structure FileInfo where
  filename : String
  file_path : String
  file_size : Nat
  processed_time : String
deriving DecidableEq, Repr

/-- The result dict of `SurveyParser.parse_survey_document`:
`file_info` (from the reader), `survey_info` (`total_questions` plus a fresh
`processed_time`), and the question list. -/
structure SurveyResult where
  file_info : FileInfo
  total_questions : Nat
  survey_processed_time : String
  questions : List Question
deriving DecidableEq, Repr

/-- `SurveyParser.parse_survey_document` on already-read content: paragraphs
are stripped and the empty ones dropped (lines 46-50), table options are
extracted, questions parsed, and the result assembled with
`survey_info.processed_time` = `datetime.now()` at parse time (`tParse`).
An exception inside parsing is caught by the surrounding `try` and turns the
run into an error result, modelled by `.error ()`. -/
def parseSurveyDocumentE (fi : FileInfo) (paras0 : List String)
    (tables : List (List (List String))) (tParse : String) :
    Except Unit SurveyResult :=
  match parseQuestions ((paras0.map pyStrip).filter (fun p => p ≠ ""))
      (extractTableOptions tables) with
  | .error e => .error e
  | .ok qs =>
    .ok { file_info := fi, total_questions := qs.length
          survey_processed_time := tParse, questions := qs }

/-- Replace every occurrence of a single character by a replacement string,
the effect of one Python `str.replace` call with a one-character pattern. -/
def replaceChar (pat : Char) (rep : List Char) : List Char → List Char
  | [] => []
  | c :: cs => (if c == pat then rep else [c]) ++ replaceChar pat rep cs

/-- `SurveyXMLGenerator.escape_xml_text`: five sequential replaces, `&`
first, then `<`, `>`, `"`, and the apostrophe. -/
def escape_xml_text (s : String) : String :=
  String.mk (replaceChar '\'' "&apos;".data
    (replaceChar '"' "&quot;".data
      (replaceChar '>' "&gt;".data
        (replaceChar '<' "&lt;".data
          (replaceChar '&' "&amp;".data s.data)))))

/-- `xml.etree.ElementTree`'s serialisation of character data
(`_escape_cdata`): `&`, `<`, `>` are escaped when the tree is written out. -/
def escape_cdata (s : String) : String :=
  String.mk (replaceChar '>' "&gt;".data
    (replaceChar '<' "&lt;".data
      (replaceChar '&' "&amp;".data s.data)))

/-- `xml.etree.ElementTree`'s serialisation of attribute values
(`_escape_attrib`). -/
def escape_attrib (s : String) : String :=
  String.mk (replaceChar '\t' "&#09;".data
    (replaceChar '\n' "&#10;".data
      (replaceChar '\r' "&#13;".data
        (replaceChar '"' "&quot;".data
          (replaceChar '>' "&gt;".data
            (replaceChar '<' "&lt;".data
              (replaceChar '&' "&amp;".data s.data)))))))

/-- A child element of a question element (title / comment / row): tag,
attributes in insertion order, and its text.  These carry no children in the
generator. -/
structure XmlNode where
  tag : String
  attrs : List (String × String)
  text : String
deriving DecidableEq, Repr

/-- A top-level element appended to the `survey` root (radio / checkbox /
number / suspend). -/
structure XmlElem where
  tag : String
  attrs : List (String × String)
  text : String
  children : List XmlNode
deriving DecidableEq, Repr

/-- `SurveyXMLGenerator.generate_single_answer_xml`. -/
def generate_single_answer_xml (q : Question) : XmlElem :=
  { tag := "radio", attrs := [("label", q.question_id)], text := ""
    children :=
      [{ tag := "title", attrs := [], text := escape_xml_text q.question_text },
       { tag := "comment", attrs := [], text := "$\x7bres.SCInst\x7d" }] ++
      q.question_options.map (fun o =>
        { tag := "row"
          attrs := [("label", "r" ++ o.option_code), ("value", o.option_code)]
          text := escape_xml_text o.option_text }) }

/-- `SurveyXMLGenerator.generate_multiple_answers_xml`.  The rows carry no
`value` attribute. -/
def generate_multiple_answers_xml (q : Question) : XmlElem :=
  { tag := "checkbox", attrs := [("label", q.question_id), ("atleast", "1")], text := ""
    children :=
      [{ tag := "title", attrs := [], text := escape_xml_text q.question_text },
       { tag := "comment", attrs := [], text := "$\x7bres.MRInst\x7d" }] ++
      q.question_options.map (fun o =>
        { tag := "row", attrs := [("label", "r" ++ o.option_code)]
          text := escape_xml_text o.option_text }) }

/-- `SurveyXMLGenerator.generate_numeric_xml`. -/
def generate_numeric_xml (q : Question) : XmlElem :=
  { tag := "number"
    attrs := [("label", q.question_id), ("optional", "0"), ("size", "20"),
              ("verify", "range(0,99)")]
    text := ""
    children := [{ tag := "title", attrs := [], text := escape_xml_text q.question_text }] }

/-- The `suspend` element appended after every emitted question element. -/
def suspendElem : XmlElem := { tag := "suspend", attrs := [], text := "", children := [] }

/-- The type dispatch of `generate_xml`'s loop (lines 114-126): a recognised
type yields its element, anything else — including the empty type and
spelling or case variants — yields nothing. -/
def emitOne (q : Question) : Option XmlElem :=
  if q.question_type = "Single Answer" then some (generate_single_answer_xml q)
  else if q.question_type = "Multiple Answers" then some (generate_multiple_answers_xml q)
  else if q.question_type = "Numeric" then some (generate_numeric_xml q)
  else none

/-- `processed_count` of `generate_xml`. -/
structure EmitCounts where
  single : Nat
  multiple : Nat
  numeric : Nat
  unknown : Nat
deriving DecidableEq, Repr

/-- Is the type one the emitter recognises? -/
def isRecognizedType (q : Question) : Bool :=
  q.question_type == "Single Answer" || q.question_type == "Multiple Answers" ||
    q.question_type == "Numeric"

/-- The body of `generate_xml`'s loop over the (sorted) question list:
recognised questions append their element and a `suspend`; unknown types are
counted and skipped (`continue`), never raising. -/
def processQuestions : List Question → List XmlElem × EmitCounts
  | [] => ([], ⟨0, 0, 0, 0⟩)
  | q :: qs =>
    if q.question_type = "Single Answer" then
      (generate_single_answer_xml q :: suspendElem :: (processQuestions qs).1,
       { (processQuestions qs).2 with single := (processQuestions qs).2.single + 1 })
    else if q.question_type = "Multiple Answers" then
      (generate_multiple_answers_xml q :: suspendElem :: (processQuestions qs).1,
       { (processQuestions qs).2 with multiple := (processQuestions qs).2.multiple + 1 })
    else if q.question_type = "Numeric" then
      (generate_numeric_xml q :: suspendElem :: (processQuestions qs).1,
       { (processQuestions qs).2 with numeric := (processQuestions qs).2.numeric + 1 })
    else ((processQuestions qs).1, { (processQuestions qs).2 with unknown := (processQuestions qs).2.unknown + 1 })

/-- `questions.sort(key=lambda x: x.get("index", 0))`: Python's sort is
stable, and any two stable sorts by the same key agree, so `mergeSort` gives
the same list. -/
def sortByIndex (qs : List Question) : List Question :=
  qs.mergeSort (fun a b => a.index ≤ b.index)

/-- Serialise one child node the way `ElementTree.tostring` writes it: text
set means open/close tags around the escaped text, no text means a
self-closed tag. -/
def serializeNode (n : XmlNode) : String :=
  let attrStr := n.attrs.foldl
    (fun acc kv => acc ++ " " ++ kv.1 ++ "=\"" ++ escape_attrib kv.2 ++ "\"") ""
  if n.text = "" then "<" ++ n.tag ++ attrStr ++ " />"
  else "<" ++ n.tag ++ attrStr ++ ">" ++ escape_cdata n.text ++ "</" ++ n.tag ++ ">"

/-- Serialise one top-level element and its children. -/
def serializeElem (e : XmlElem) : String :=
  let attrStr := e.attrs.foldl
    (fun acc kv => acc ++ " " ++ kv.1 ++ "=\"" ++ escape_attrib kv.2 ++ "\"") ""
  if e.text = "" && e.children.isEmpty then "<" ++ e.tag ++ attrStr ++ " />"
  else
    "<" ++ e.tag ++ attrStr ++ ">" ++ escape_cdata e.text ++
      (e.children.map serializeNode).foldl (fun a b => a ++ b) "" ++ "</" ++ e.tag ++ ">"

/-- The markup document of `generate_xml` at the `ET.tostring(self.root)`
stage (the minidom pretty-print that follows is persistence formatting,
out of the core per the spec), together with the emission statistics. -/
def generateXmlDoc (qs : List Question) : String × EmitCounts :=
  (if (processQuestions (sortByIndex qs)).1.isEmpty then "<survey />"
   else
     "<survey>" ++
       (((processQuestions (sortByIndex qs)).1.map serializeElem).foldl
         (fun a b => a ++ b) "") ++ "</survey>",
   (processQuestions (sortByIndex qs)).2)

/-- The row-shape policy, written from the claim's wording: 4-or-more cells
give up to two (text, code) pairs, 2-or-3 cells one pair, exactly one cell a
label-only option whose code is `1 + options collected so far`, each appended
only when its parts are non-empty (and, for the one-cell rule, the text not
purely numeric). -/
def rowStepSpec (opts : List Opt) (row : List String) : List Opt :=
  if 4 ≤ row.length then
    let t1 := pyStrip (row.getD 0 "")
    let c1 := pyStrip (row.getD 1 "")
    let t2 := pyStrip (row.getD 2 "")
    let c2 := pyStrip (row.getD 3 "")
    let opts1 := if t1 ≠ "" && c1 ≠ "" then opts ++ [⟨c1, t1⟩] else opts
    if t2 ≠ "" && c2 ≠ "" then opts1 ++ [⟨c2, t2⟩] else opts1
  else if row.length = 2 ∨ row.length = 3 then
    let t := pyStrip (row.getD 0 "")
    let c := pyStrip (row.getD 1 "")
    if t ≠ "" && c ≠ "" then opts ++ [⟨c, t⟩] else opts
  else if row.length = 1 then
    let t := pyStrip (row.getD 0 "")
    if t ≠ "" && !pyIsDigit t then opts ++ [⟨toString (opts.length + 1), t⟩] else opts
  else opts

/-- The Table-Option Extractor as the claim describes it: per-table fold of
the row rules, keeping only tables that contributed at least one option. -/
def extractSpecC2 (tables : List (List (List String))) : List (List Opt) :=
  (tables.map (fun rows => rows.foldl rowStepSpec [])).filter (fun o => o ≠ [])

/-- Concrete question for the C3 counterexample: finalised type, empty
options, text matching no assignment keyword. -/
def C3_q : Question :=
  { index := 1, answer_logic := "ASK ALL", question_id := "Q1x1"
    question_text := "zzz", question_type := "Single Answer", question_options := [] }

/-- Concrete option-list sequence for the C3 counterexample. -/
def C3_ts : List (List Opt) := [[⟨"1", "yes"⟩]]

/-- Concrete question for the C6 failing input: its text holds the three
characters the claim talks about. -/
def C6_q : Question :=
  { index := 1, answer_logic := "ASK ALL", question_id := "Q1x1"
    question_text := "a<b&c\"d", question_type := "Single Answer", question_options := [] }

/-- The question produced by the C9 counterexample run: the classifier kept
the singular spelling "Multiple Answer" verbatim. -/
def C9_q : Question :=
  { index := 1, answer_logic := "ASK ALL", question_id := "Q1x1"
    question_text := "Which brands do you use", question_type := "Multiple Answer"
    question_options := [] }

/-- Concrete question for the C9 witness: exact spelling the emitter
recognises. -/
def C9_qW : Question :=
  { index := 2, answer_logic := "ASK ALL", question_id := "Q1x2"
    question_text := "Pick some", question_type := "Multiple Answers"
    question_options := [⟨"1", "alpha"⟩, ⟨"2", "beta"⟩] }

/-- Concrete question for the C10 witness. -/
def C10_q : Question :=
  { index := 3, answer_logic := "ASK ALL", question_id := ""
    question_text := "", question_type := ""
    question_options := [⟨"7", "kept"⟩] }

/-- File metadata for the C5 runs (first run). -/
def C5_fi1 : FileInfo :=
  { filename := "s.docx", file_path := "/tmp/s.docx", file_size := 100
    processed_time := "2024-01-01T10:00:00" }

/-- File metadata for the C5 runs (second run: only the read timestamp
differs). -/
def C5_fi2 : FileInfo :=
  { filename := "s.docx", file_path := "/tmp/s.docx", file_size := 100
    processed_time := "2024-01-02T10:00:00" }

/-- The question list produced by the C1 witness run. -/
def C1_qs : List Question :=
  [{ index := 1, answer_logic := "ASK ALL", question_id := "Q1x1"
     question_text := "aa", question_type := "", question_options := [] }]

/-- Result of the first C5 run. -/
def C5_r1 : SurveyResult :=
  { file_info := C5_fi1, total_questions := 1
    survey_processed_time := "2024-01-01T10:00:01", questions := C1_qs }

/-- Result of the second C5 run on the same Input A/B: only the two
`processed_time` stamps differ. -/
def C5_r2 : SurveyResult :=
  { file_info := C5_fi2, total_questions := 1
    survey_processed_time := "2024-01-02T10:00:01", questions := C1_qs }

theorem assignTableOptions_ok_shape {ts : List (List Opt)} {q q' : Question}
    (h : assignTableOptions ts q = .ok q') :
    ∃ o, q' = { q with question_options := o } := by
  unfold assignTableOptions at h
  cases he : assignedOptionsE ts q with
  | error e => rw [he] at h; simp [Except.map] at h
  | ok o =>
    rw [he] at h
    simp only [Except.map] at h
    injection h with h
    exact ⟨o, h.symm⟩

theorem assignTableOptions_ok_index {ts : List (List Opt)} {q q' : Question}
    (h : assignTableOptions ts q = .ok q') : q'.index = q.index := by
  obtain ⟨o, rfl⟩ := assignTableOptions_ok_shape h
  rfl

theorem setTypeFrom_index (q : Question) (s : String) :
    (setTypeFrom q s).index = q.index := by
  unfold setTypeFrom
  cases typeGroup1 s <;> rfl

theorem finalizeOnMarker_index (paras : List String) (q : Question) :
    (finalizeOnMarker paras q).index = q.index := by
  unfold finalizeOnMarker
  split <;> rfl

theorem finalizeAtEnd_ok_index {paras : List String} {ts : List (List Opt)}
    {q q' : Question} (h : finalizeAtEnd paras ts q = .ok q') : q'.index = q.index := by
  unfold finalizeAtEnd at h
  split at h
  next e heq =>
    exact absurd h (by simp)
  next q1 heq =>
    injection h with h
    subst h
    rw [finalizeOnMarker_index]
    split at heq
    · exact assignTableOptions_ok_index heq
    · injection heq with heq; rw [heq]

theorem lookFill_ok_index {paras : List String} {ts : List (List Opt)} {ni : Nat}
    {q q' : Question} (h : lookFill paras ts ni q = .ok q') : q'.index = q.index := by
  unfold lookFill at h
  split at h
  next num txt heq =>
    obtain ⟨o, rfl⟩ := assignTableOptions_ok_shape h
    rfl
  next heq =>
    split at h
    · obtain ⟨o, rfl⟩ := assignTableOptions_ok_shape h
      rfl
    · injection h with h; rw [← h]

theorem lookTypeSet_index (paras : List String) (ni : Nat) (q : Question) :
    (lookTypeSet paras ni q).index = q.index := by
  unfold lookTypeSet
  split
  · rw [setTypeFrom_index]
  · split
    · rw [setTypeFrom_index]
    · rfl

theorem lookStep_ok_index {paras : List String} {ts : List (List Opt)} {i : Nat}
    {q q' : Question} (h : lookStep paras ts i q = .ok q') : q'.index = q.index := by
  unfold lookStep at h
  split at h
  · injection h with h; rw [← h]
  next k heq =>
    split at h
    · exact absurd h (by simp)
    next q1 heq1 =>
      injection h with h
      subst h
      rw [lookTypeSet_index]
      exact lookFill_ok_index heq1

theorem typeMarkerStep_ok_index {ts : List (List Opt)} {para : String}
    {q q' : Question} (h : typeMarkerStep ts para q = .ok q') : q'.index = q.index := by
  unfold typeMarkerStep at h
  split at h
  · split at h
    · exact absurd h (by simp)
    next q3 heq =>
      injection h with h
      subst h
      have h3 : q3.index = q.index := by
        rw [assignTableOptions_ok_index heq, setTypeFrom_index]
      split
      · split
        · simpa using h3
        · exact h3
      · exact h3
  · injection h with h; rw [← h, setTypeFrom_index]

theorem optionStep_index (para : String) (q : Question) :
    (optionStep para q).index = q.index := by
  unfold optionStep
  cases parseOption para <;> rfl

theorem range1_concat (n : Nat) : List.range' 1 (n + 1) = List.range' 1 n ++ [n + 1] := by
  rw [List.range'_concat]
  simp [Nat.add_comm]


theorem finishUp_indices {paras : List String} {ts : List (List Opt)}
    {cur : Option Question} {acc qs : List Question}
    (h1 : acc.map Question.index = List.range' 1 acc.length)
    (h3 : ∀ q, cur = some q → q.index = acc.length + 1)
    (hrun : finishUp paras ts cur acc = .ok qs) :
    qs.map Question.index = List.range' 1 qs.length := by
  cases cur with
  | none =>
    simp only [finishUp] at hrun
    injection hrun with h
    subst h
    exact h1
  | some q =>
    simp only [finishUp] at hrun
    split at hrun
    · exact absurd hrun (by simp)
    next q1 heq =>
      injection hrun with h
      subst h
      have hidx : q1.index = acc.length + 1 := by
        rw [finalizeAtEnd_ok_index heq, h3 q rfl]
      simp only [List.map_append, List.length_append, List.map_cons, List.map_nil,
        List.length_cons, List.length_nil, h1, hidx]
      rw [range1_concat]

theorem parseLoopAux_succ (paras : List String) (ts : List (List Opt))
    (fuel i : Nat) (cur : Option Question) (qidx : Nat) (acc : List Question) :
    parseLoopAux paras ts (fuel + 1) i cur qidx acc =
      (if i < paras.length then
        if matchAnswerLogic (pyStrip (paras.getD i "")) then
          match lookStep paras ts i (mkNewQuestion qidx (pyStrip (paras.getD i ""))) with
          | .error e => .error e
          | .ok newQ =>
            parseLoopAux paras ts fuel (i + 1) (some newQ) (qidx + 1)
              (match cur with
               | some q => acc ++ [finalizeOnMarker paras q]
               | none => acc)
        else
          match cur with
          | some q =>
            if isQuestionType (pyStrip (paras.getD i "")) then
              match typeMarkerStep ts (pyStrip (paras.getD i "")) q with
              | .error e => .error e
              | .ok q1 => parseLoopAux paras ts fuel (i + 1) (some q1) qidx acc
            else if (parseOption (pyStrip (paras.getD i ""))).isSome then
              parseLoopAux paras ts fuel (i + 1) (some (optionStep (pyStrip (paras.getD i "")) q)) qidx acc
            else
              parseLoopAux paras ts fuel (i + 1) (some q) qidx acc
          | none => parseLoopAux paras ts fuel (i + 1) none qidx acc
      else finishUp paras ts cur acc) := rfl

theorem parseLoopAux_ok_indices (paras : List String) (ts : List (List Opt)) :
    ∀ (fuel i : Nat) (cur : Option Question) (qidx : Nat) (acc qs : List Question),
      acc.map Question.index = List.range' 1 acc.length →
      (∀ q, cur = some q → q.index = acc.length + 1) →
      (cur = none → qidx = acc.length + 1) →
      (∀ q, cur = some q → qidx = acc.length + 2) →
      parseLoopAux paras ts fuel i cur qidx acc = .ok qs →
      qs.map Question.index = List.range' 1 qs.length := by
  intro fuel
  induction fuel with
  | zero =>
    intro i cur qidx acc qs h1 h3 _ _ hrun
    exact finishUp_indices h1 h3 hrun
  | succ fuel ih =>
    intro i cur qidx acc qs h1 h3 h2 h4 hrun
    rw [parseLoopAux_succ] at hrun
    split at hrun
    · -- i < paras.length
      split at hrun
      · -- answer-logic marker
        split at hrun
        · exact absurd hrun (by simp)
        next newQ heq =>
          cases cur with
          | none =>
            refine ih (i + 1) (some newQ) (qidx + 1) acc qs h1 ?_ (by simp) ?_ hrun
            · intro q hq
              injection hq with hq
              subst hq
              rw [lookStep_ok_index heq]
              have hq2 := h2 rfl
              simp only [mkNewQuestion]
              omega
            · intro q _
              have hq2 := h2 rfl
              omega
          | some qc =>
            refine ih (i + 1) (some newQ) (qidx + 1)
              (acc ++ [finalizeOnMarker paras qc]) qs ?_ ?_ (by simp) ?_ hrun
            · simp only [List.map_append, List.map_cons, List.map_nil,
                finalizeOnMarker_index, h1, h3 qc rfl, List.length_append,
                List.length_cons, List.length_nil]
              rw [range1_concat]
            · intro q hq
              injection hq with hq
              subst hq
              rw [lookStep_ok_index heq]
              have hq4 := h4 qc rfl
              simp only [mkNewQuestion, List.length_append, List.length_cons, List.length_nil]
              omega
            · intro q _
              have hq4 := h4 qc rfl
              simp only [List.length_append, List.length_cons, List.length_nil]
              omega
      · -- not a marker
        split at hrun
        case _ =>
          rename_i qc
          split at hrun
          · -- type marker
            split at hrun
            · exact absurd hrun (by simp)
            next q1 heq =>
              refine ih (i + 1) (some q1) qidx acc qs h1 ?_ (by simp) ?_ hrun
              · intro q hq
                injection hq with hq
                subst hq
                rw [typeMarkerStep_ok_index heq]
                exact h3 qc rfl
              · intro q _
                exact h4 qc rfl
          · split at hrun
            · -- inline option
              refine ih (i + 1) (some (optionStep (pyStrip (paras.getD i "")) qc)) qidx
                acc qs h1 ?_ (by simp) ?_ hrun
              · intro q hq
                injection hq with hq
                subst hq
                rw [optionStep_index]
                exact h3 qc rfl
              · intro q _
                exact h4 qc rfl
            · -- noise paragraph
              refine ih (i + 1) (some qc) qidx acc qs h1 ?_ (by simp) ?_ hrun
              · intro q hq
                injection hq with hq
                subst hq
                exact h3 qc rfl
              · intro q _
                exact h4 qc rfl
        case _ =>
          refine ih (i + 1) none qidx acc qs h1 (by simp) ?_ (by simp) hrun
          intro _
          exact h2 rfl
    · -- end of stream
      exact finishUp_indices h1 h3 hrun


/-- C1.  For every paragraph sequence and table sequence, when segmentation
completes (no exception escapes), the produced `Question` records carry
`index` values that are exactly `1..N` in output order: no gaps, no repeats,
each created question appended exactly once. -/
theorem C1_parse_questions_indices (paras : List String) (ts : List (List Opt))
    (qs : List Question) (h : parseQuestions paras ts = .ok qs) :
    qs.map Question.index = List.range' 1 qs.length :=
  parseLoopAux_ok_indices paras ts paras.length 0 none 1 [] qs rfl
    (by simp) (by simp) (by simp) h

/-- Witness for C1 at a concrete input. -/
theorem C1_witness :
    parseQuestions ["ASK ALL", "1.1 aa"] [] = .ok C1_qs ∧
    C1_qs.map Question.index = List.range' 1 C1_qs.length := by
  constructor
  · rfl
  · exact C1_parse_questions_indices ["ASK ALL", "1.1 aa"] [] C1_qs (by rfl)

/-- C10.  A question whose `question_text` is empty is returned unchanged by
the Option Assignment Heuristic, for every option-list sequence: no binding,
no clearing, no modification of any field (and no exception). -/
theorem C10_empty_text_frame (ts : List (List Opt)) (q : Question)
    (h : q.question_text = "") : assignTableOptions ts q = .ok q := by
  obtain ⟨i, al, qid, qt, qty, qo⟩ := q
  have h2 : qt = "" := h
  subst h2
  rfl

/-- Witness for C10 at a concrete record and option-list sequence. -/
theorem C10_witness :
    C10_q.question_text = "" ∧
    assignTableOptions [[⟨"1", "x"⟩], []] C10_q = .ok C10_q :=
  ⟨rfl, C10_empty_text_frame [[⟨"1", "x"⟩], []] C10_q rfl⟩

/-- C7.  `_generate_question_id`: when the numbering splits on `.` into
exactly two parts the id is `"Q" ++ major ++ "x" ++ minor` (so `"1.4a"` gives
`"Q1x4a"`), and for every other shape the id is `"Q"` followed by the
numbering verbatim. -/
theorem C7_question_id_rule (s p0 p1 : String) :
    (pySplitDot s = [p0, p1] → generateQuestionId s = "Q" ++ p0 ++ "x" ++ p1) ∧
    ((pySplitDot s).length ≠ 2 → generateQuestionId s = "Q" ++ s) := by
  constructor
  · intro h
    unfold generateQuestionId
    rw [h]
  · intro h
    unfold generateQuestionId
    split
    next heq => exact absurd (by rw [heq]; rfl) h
    next => rfl

/-- Witness for C7: the letter-suffixed minor `"1.4a"` and a dot-free
numbering. -/
theorem C7_witness :
    generateQuestionId "1.4a" = "Q1x4a" ∧ generateQuestionId "2024" = "Q2024" := by
  constructor
  · exact (C7_question_id_rule "1.4a" "1" "4a").1 (by rfl)
  · exact (C7_question_id_rule "2024" "" "").2 (by decide)

/-- C3, counterexample.  The claim says the finalisation run when a new
answer-logic marker arrives is the same finalize-and-append sequence as at
end-of-stream, including an option-binding attempt when `question_options`
is still empty.  At this concrete question (empty options, non-empty text,
type already set) the end-of-stream sequence binds the first option list
while the marker-time sequence leaves the options empty: the two sequences
differ. -/
theorem C3_counterexample :
    finalizeOnMarker [] C3_q = C3_q ∧
    finalizeAtEnd [] C3_ts C3_q = .ok { C3_q with question_options := [⟨"1", "yes"⟩] } ∧
    Except.ok (finalizeOnMarker [] C3_q) ≠ finalizeAtEnd [] C3_ts C3_q := by
  refine ⟨rfl, rfl, ?_⟩
  intro h
  rw [show finalizeOnMarker [] C3_q = C3_q from rfl,
    show finalizeAtEnd [] C3_ts C3_q =
      .ok { C3_q with question_options := [⟨"1", "yes"⟩] } from rfl] at h
  injection h with h
  have := congrArg Question.question_options h
  simp [C3_q] at this

/-- C3, amended.  When a new answer-logic marker is recognised while a
question is in progress, the in-progress question is finalised by running
the comprehensive type search if its type is still empty and then appended;
option binding is NOT attempted at marker time (marker-time finalisation
never changes `question_options`).  End-of-stream finalisation instead first
binds options when they are still empty and then runs the same marker-time
type fallback. -/
theorem C3_amended_finalize (paras : List String) (ts : List (List Opt)) (q : Question) :
    (finalizeOnMarker paras q).question_options = q.question_options ∧
    finalizeAtEnd paras ts q =
      (if q.question_options.isEmpty then assignTableOptions ts q else .ok q).map
        (finalizeOnMarker paras) := by
  constructor
  · unfold finalizeOnMarker
    split
    · rfl
    · rfl
  · unfold finalizeAtEnd
    cases hif : (if q.question_options.isEmpty then assignTableOptions ts q else .ok q) with
    | error e => rfl
    | ok q1 => rfl

/-- C4.  The claim states the default positional fallback never raises for
any question index and any option-list sequence.  The backward search
`range(table_index - 1, -1, -1)` starts at `index - 2` without clamping to
the list length, so any question whose index exceeds the option-list count
by at least two raises `IndexError`, aborting the whole run: here a document
with two questions and no usable table.  The claim (and spec section 7)
is the evident intent; the unclamped loop start is the slip. -/
theorem C4_assignment_raises :
    parseQuestions ["ASK ALL", "1.1 aa", "ASK ALL", "1.2 bb"] [] = .error () ∧
    assignedOptionsE []
      { index := 2, answer_logic := "ASK ALL", question_id := "Q1x2"
        question_text := "bb", question_type := "", question_options := [] } =
      .error () := ⟨rfl, rfl⟩

/-- C6.  The claim says a question text containing `<`, `&`, `"` is emitted
with those characters escaped exactly once (`&lt;`, `&amp;`, `&quot;`).
`escape_xml_text` does escape once (second conjunct), but `generate_xml`
stores that escaped text in the element and the tree serialiser escapes the
`&`s again, so the document text is double-escaped (first conjunct): the
title of the emitted element reads `a&amp;lt;b&amp;amp;c&amp;quot;d` instead
of `a&lt;b&amp;c&quot;d`. -/
theorem C6_double_escaped_output :
    serializeElem (generate_single_answer_xml C6_q) =
      "<radio label=\"Q1x1\"><title>a&amp;lt;b&amp;amp;c&amp;quot;d</title><comment>$\x7bres.SCInst\x7d</comment></radio>" ∧
    escape_xml_text "a<b&c\"d" = "a&lt;b&amp;c&quot;d" ∧
    escape_cdata (escape_xml_text "a<b&c\"d") ≠ escape_xml_text "a<b&c\"d" := by
  refine ⟨rfl, rfl, ?_⟩
  decide

/-- C9, counterexample.  The classifier keeps the marker's first group
verbatim, so the singular marker "Multiple Answer" yields a question whose
type is the string "Multiple Answer".  The claim says every question whose
type is MultipleAnswers gets a checkbox element; the emitter, however,
compares against the exact string "Multiple Answers", treats the singular
spelling as unknown, emits nothing, and counts it under Unknown. -/
theorem C9_counterexample :
    parseQuestions ["ASK ALL", "1.1 Which brands do you use", "Multiple Answer"] [] =
      .ok [C9_q] ∧
    C9_q.question_type = "Multiple Answer" ∧
    emitOne C9_q = none ∧
    processQuestions [C9_q] = ([], ⟨0, 0, 0, 1⟩) :=
  ⟨rfl, rfl, rfl, rfl⟩

/-- C9, amended.  Only a question whose `question_type` is exactly the
string "Multiple Answers" receives the multi-choice element: a `checkbox`
with the identifier label, minimum-selection attribute `atleast = "1"`, a
title holding the escaped question text, a fixed instructional placeholder,
and one option row per Option labelled `"r" ++ option_code` with no value
attribute.  Spelling or case variants captured verbatim by the classifier
("Multiple Answer", "multiple answers") are not emitted but skipped and
counted as Unknown. -/
theorem C9_amended_checkbox (q : Question) (h : q.question_type = "Multiple Answers") :
    emitOne q = some
      { tag := "checkbox"
        attrs := [("label", q.question_id), ("atleast", "1")]
        text := ""
        children :=
          [{ tag := "title", attrs := [], text := escape_xml_text q.question_text },
           { tag := "comment", attrs := [], text := "$\x7bres.MRInst\x7d" }] ++
          q.question_options.map (fun o =>
            { tag := "row", attrs := [("label", "r" ++ o.option_code)]
              text := escape_xml_text o.option_text }) } := by
  unfold emitOne
  rw [h]
  rfl

/-- Witness for C9's amended claim at a concrete question. -/
theorem C9_witness :
    C9_qW.question_type = "Multiple Answers" ∧
    emitOne C9_qW = some (generate_multiple_answers_xml C9_qW) := by
  refine ⟨rfl, ?_⟩
  rw [C9_amended_checkbox C9_qW rfl]
  rfl

/-- C5, counterexample.  Running the pipeline twice on the same Input A/B
produces different Output 1 records: `file_info.processed_time` (stamped by
the reader) and `survey_info.processed_time` (stamped by the parser) record
the wall clock of each run, so the serialised record collections are not
byte-identical. -/
theorem C5_counterexample :
    parseSurveyDocumentE C5_fi1 ["ASK ALL", "1.1 aa"] [] "2024-01-01T10:00:01" =
      .ok C5_r1 ∧
    parseSurveyDocumentE C5_fi2 ["ASK ALL", "1.1 aa"] [] "2024-01-02T10:00:01" =
      .ok C5_r2 ∧
    C5_r1 ≠ C5_r2 := by
  refine ⟨rfl, rfl, ?_⟩
  intro h
  have := congrArg SurveyResult.survey_processed_time h
  simp [C5_r1, C5_r2] at this

/-- C5, amended.  Re-running the pipeline on the same Input A/B yields the
same question records and a byte-identical Output 2 (markup document);
Output 1 can differ only in the two `processed_time` timestamp fields, which
do not influence the questions or the markup. -/
theorem C5_amended_idempotence (fi fi2 : FileInfo) (paras0 : List String)
    (tables : List (List (List String))) (t t2 : String) :
    (parseSurveyDocumentE fi paras0 tables t).map (fun r => r.questions) =
      (parseSurveyDocumentE fi2 paras0 tables t2).map (fun r => r.questions) ∧
    (parseSurveyDocumentE fi paras0 tables t).map
        (fun r => (generateXmlDoc r.questions).1) =
      (parseSurveyDocumentE fi2 paras0 tables t2).map
        (fun r => (generateXmlDoc r.questions).1) := by
  unfold parseSurveyDocumentE
  cases parseQuestions ((paras0.map pyStrip).filter (fun p => p ≠ ""))
      (extractTableOptions tables) with
  | error e => exact ⟨rfl, rfl⟩
  | ok qs => exact ⟨rfl, rfl⟩

theorem rowStep_eq_rowStepSpec (opts : List Opt) (row : List String) :
    rowStep opts row = rowStepSpec opts row := by
  unfold rowStep rowStepSpec
  split_ifs <;> first | rfl | omega

theorem extractFold_general (tables : List (List (List String))) :
    ∀ acc : List (List Opt),
      tables.foldl extractStep acc =
      acc ++ (tables.map tableOptionsOf).filter (fun o => o ≠ []) := by
  induction tables with
  | nil => intro acc; simp
  | cons t ts ih =>
    intro acc
    rw [List.foldl_cons, ih]
    unfold extractStep
    by_cases h : tableOptionsOf t = []
    · simp [h]
    · simp [h, List.append_assoc]

/-- C2.  The Table-Option Extractor equals the claim's description: each table
grid is folded with the first-matching row-shape rule (4-or-more cells give
up to two text/code pairs, 2-or-3 cells one pair, exactly one non-empty
non-numeric cell a synthesised code `1 + count so far`), and a table appears
in the output sequence exactly when it contributed at least one option. -/
theorem C2_extract_table_options_spec (tables : List (List (List String))) :
    extractTableOptions tables = extractSpecC2 tables := by
  have hstep : rowStep = rowStepSpec :=
    funext fun o => funext fun r => rowStep_eq_rowStepSpec o r
  unfold extractSpecC2
  rw [← hstep]
  rw [show (fun rows => List.foldl rowStep [] rows) = tableOptionsOf from rfl]
  unfold extractTableOptions
  rw [extractFold_general tables []]
  rfl

theorem processQuestions_unknown (qs : List Question) :
    (processQuestions qs).2.unknown = qs.countP (fun q => !isRecognizedType q) := by
  induction qs with
  | nil => rfl
  | cons q qs ih =>
    rw [processQuestions, List.countP_cons]
    by_cases h1 : q.question_type = "Single Answer"
    · simp [h1, isRecognizedType, ih]
    · by_cases h2 : q.question_type = "Multiple Answers"
      · simp [h1, h2, isRecognizedType, ih]
      · by_cases h3 : q.question_type = "Numeric"
        · simp [h1, h2, h3, isRecognizedType, ih]
        · simp [h1, h2, h3, isRecognizedType, ih]

theorem processQuestions_elems (qs : List Question) :
    (processQuestions qs).1 =
      (qs.filterMap emitOne).flatMap (fun e => [e, suspendElem]) := by
  induction qs with
  | nil => rfl
  | cons q qs ih =>
    rw [processQuestions, List.filterMap_cons]
    by_cases h1 : q.question_type = "Single Answer"
    · simp [h1, emitOne, ih]
    · by_cases h2 : q.question_type = "Multiple Answers"
      · simp [h1, h2, emitOne, ih]
      · by_cases h3 : q.question_type = "Numeric"
        · simp [h1, h2, h3, emitOne, ih]
        · simp [h1, h2, h3, emitOne, ih]

/-- C8.  At emission time, every question whose type is not one of the three
recognised strings produces no element, is counted in the separate Unknown
counter, and processing continues with the remaining questions (the emitted
element stream is exactly the recognised questions' elements, each followed
by its terminator); the emitter is total, so no record ever makes it raise.
The first conjunct states the Unknown count over the whole document
(`generate_xml` runs the loop on the index-sorted list, a permutation). -/
theorem C8_unknown_skipped (qs : List Question) :
    (generateXmlDoc qs).2.unknown = qs.countP (fun q => !isRecognizedType q) ∧
    (processQuestions qs).2.unknown = qs.countP (fun q => !isRecognizedType q) ∧
    (processQuestions qs).1 =
      (qs.filterMap emitOne).flatMap (fun e => [e, suspendElem]) := by
  refine ⟨?_, processQuestions_unknown qs, processQuestions_elems qs⟩
  have hperm : List.Perm (sortByIndex qs) qs := List.mergeSort_perm qs _
  have := hperm.countP_eq (fun q => !isRecognizedType q)
  rw [show (generateXmlDoc qs).2 = (processQuestions (sortByIndex qs)).2 from rfl,
    processQuestions_unknown (sortByIndex qs), this]
